import Mathlib

/-!
# zipkin_example: middleware chains and tracing spans

A shallow embedding of the four Go programs of the repository:

* `main.go`                                   (`sendToZipkin`, `makeFirstRequest`, `makeSecondRequest`)
* `example_two_alternate_zipkin/main.go`      (`multiplexer.ServeHTTP`, `endpoints`, `fooHandler`, `barHandler`)
* `example_three_middleware/main.go`          (`chainMiddleware`, `createZipkin`, `sendToZipkinBefore`, `sendToZipkinAfter`, `home`)
* `example_four_middleware_logging/main.go`   (`chainMiddleware`, `logBefore`, `logAfter`, `home`)

Go code is stateful; here every function passes a `World` explicitly.  The world
holds the ordered log of observable effects (span starts, tags, finishes, dumps,
header writes), the heap of `*http.Request` objects, the span-id counter and the
process-wide tracer registration.  A handler returns the final world together
with `none` (normal return) or `some p` (the goroutine is panicking with `p`).
-/

namespace ZipkinExample

/-! ## Data model -/

/-- Value of a span tag: the programs only ever store strings and integers. -/
inductive TagValue where
  | str (s : String)
  | int (n : Int)
  deriving DecidableEq, Repr

/-- Observable effects, in the order in which the program performs them. -/
inductive Event where
  /-- Go `tracer.StartSpan(name)` produced span `id`, child of `parent` when present. -/
  | spanStart (id : Nat) (name : String) (parent : Option Nat)
  /-- Go `span.SetOperationName(name)` on span `id`. -/
  | setOperationName (id : Nat) (name : String)
  /-- Go `span.SetTag(key, value)` on span `id`. -/
  | setTag (id : Nat) (key : String) (value : TagValue)
  /-- Go `span.Finish()` on span `id`. -/
  | finish (id : Nat)
  /-- Go `collector.Close()`. -/
  | collectorClose
  /-- Go `w.WriteHeader(code)` on response writer `w`. -/
  | writeHeader (w : Nat) (code : Nat)
  /-- Go `spew.Dump(v)` with `v` rendered as a string. -/
  | dump (v : String)
  /-- Go `log.Println(line)`. -/
  | println (line : String)
  /-- A recording middleware unit ran its pre-logic. -/
  | before (unit : String)
  /-- A recording middleware unit ran its post-logic. -/
  | after (unit : String)
  /-- A recording handler named `name` was invoked on writer `w` and request pointer `r`. -/
  | call (name : String) (w : Nat) (r : Nat)
  deriving DecidableEq, Repr

/-- The `context.Context` of the programs: the only value ever stored in it is the active span. -/
structure Context where
  span : Option Nat
  deriving DecidableEq, Repr

/-- Go `context.Background()`. -/
def Context.Background : Context := ⟨none⟩

/-- The fields of `url.URL` the programs read. -/
structure URL where
  Scheme : String
  Host : String
  Path : String
  RawQuery : String
  deriving DecidableEq, Repr

/-- The fields of `http.Response` the programs read. -/
structure Response where
  StatusCode : Int
  deriving DecidableEq, Repr

/-- The fields of `http.Request` the programs read or write. -/
structure Request where
  Method : String
  URL : URL
  RequestURI : String
  Header : String
  ctx : Context
  Response : Option Response
  deriving DecidableEq, Repr

/-- Go `zipkin.Collector` built by `NewHTTPCollector(url)`. -/
structure Collector where
  url : String
  deriving DecidableEq, Repr

/-- Go `zipkin.NewRecorder(collector, debug, hostPort, serviceName)`. -/
structure Recorder where
  collector : Collector
  debug : Bool
  hostPort : String
  serviceName : String
  deriving DecidableEq, Repr

/-- Go `zipkin.NewTracer(recorder, ClientServerSameSpan(_), TraceID128Bit(_))`. -/
structure Tracer where
  recorder : Recorder
  sameSpan : Bool
  traceID128Bit : Bool
  deriving DecidableEq, Repr

/-- Explicit program state. `heap` holds the `*http.Request` objects (a pointer is an
address, `nextReq` the next free one), `nextSpan` is the identity the next started span
receives, `globalTracer` is the value registered with `opentracing.InitGlobalTracer`. -/
structure World where
  log : List Event
  heap : Nat → Request
  nextReq : Nat
  nextSpan : Nat
  globalTracer : Option Tracer

/-- Append one observable effect. -/
def World.record (s : World) (e : Event) : World :=
  { s with log := s.log ++ [e] }

/-- Append several observable effects, in order. -/
def World.recordAll (s : World) (es : List Event) : World :=
  { s with log := s.log ++ es }

/-- The request every fresh address holds: `GET /home` with an empty context. -/
def Request.blank : Request :=
  { Method := "GET", URL := ⟨"", "", "/home", ""⟩, RequestURI := "/home", Header := "",
    ctx := Context.Background, Response := none }

/-- A world in which nothing has happened yet. -/
def World.empty : World := ⟨[], fun _ => Request.blank, 1, 0, none⟩

/-- Go `http.ResponseWriter`, by identity. -/
abbrev ResponseWriter := Nat

/-- Go `*http.Request`: an address of `World.heap`. -/
abbrev ReqPtr := Nat

/-- Go `http.HandlerFunc`, i.e. `func(w http.ResponseWriter, r *http.Request)`.
The second component of the result is `some p` when the call panics with `p`. -/
abbrev HandlerFunc := ResponseWriter → ReqPtr → World → World × Option String

/-- Go `type middleware func(http.HandlerFunc) http.HandlerFunc`. -/
abbrev middleware := HandlerFunc → HandlerFunc

/-! ## `chainMiddleware` (example three and example four, identical text) -/

/-- The loop `for i := len(mw) - 1; i >= 0; i-- { last = mw[i](last) }`,
with the counter `n = i + 1` so that the loop ends at `n = 0`. -/
def chainLoop (mw : List middleware) : Nat → HandlerFunc → HandlerFunc
  | 0, last => last
  | n + 1, last =>
    match mw[n]? with
    | some m => chainLoop mw n (m last)
    | none => chainLoop mw n last

/-- Go `chainMiddleware(mw ...middleware) middleware`: the returned handler rebuilds the
nest on every invocation and then calls it on `(w, r)`. -/
def chainMiddleware (mw : List middleware) : middleware :=
  fun final => fun w r => (chainLoop mw mw.length final) w r

/-- A middleware unit that records `before name`, calls `next` once on the same `(w, r)`,
and records `after name` when `next` returns. -/
def recordingUnit (name : String) : middleware :=
  fun next => fun w r s =>
    match next w r (s.record (Event.before name)) with
    | (s1, none) => (s1.record (Event.after name), none)
    | (s1, some p) => (s1, some p)

/-- A terminal handler that only records that it was called, and with which `(w, r)`. -/
def recordingHandler (name : String) : HandlerFunc :=
  fun w r s => (s.record (Event.call name w r), none)

/-! ## External collaborators -/

/-- The libraries the programs call and whose results the programs branch on:
the zipkin constructors, `net/url`, `http.Client` and `go-uuid`. -/
structure Env where
  /-- Go `zipkin.NewHTTPCollector(url)`. -/
  newHTTPCollector : String → Except String Collector
  /-- Go `zipkin.NewTracer(recorder, ClientServerSameSpan(b1), TraceID128Bit(b2))`. -/
  newTracer : Recorder → Bool → Bool → Except String Tracer
  /-- Go `url.Parse`, as called inside `http.NewRequest`. -/
  parseURL : String → Except String URL
  /-- Go `(*url.URL).String()`. -/
  urlString : URL → String
  /-- Go `http.Client.Do(req)`: a transport error, or a response pointer (possibly nil). -/
  clientDo : Request → Except String (Option Response)
  /-- Go `uuid.GenerateUUID()`: the identifier and the error (nil as `none`). -/
  generateUUID : World → String × Option String

/-- Go `http.NewRequest(method, url, nil)`: fails when the URL does not parse, otherwise
a fresh request carrying the method and the parsed URL. -/
def NewRequest (env : Env) (method url : String) : Except String Request :=
  match env.parseURL url with
  | .error err => .error err
  | .ok u =>
    .ok { Method := method, URL := u, RequestURI := "", Header := "",
          ctx := Context.Background, Response := none }

/-- Go `http.MethodGet`. -/
def http.MethodGet : String := "GET"

/-- Go `http.StatusNotFound`. -/
def http.StatusNotFound : Nat := 404

/-- Go `ext.SpanKind` (opentracing-go), as a tag key. -/
def ext.SpanKind : String := "span.kind"

/-- Go `ext.SpanKindRPCClient` (opentracing-go), by the kind it carries, `client`. -/
def ext.SpanKindRPCClient : TagValue := .str "client"

/-- Go `ext.HTTPMethod`. -/
def ext.HTTPMethod : String := "http.method"

/-- Go `ext.HTTPUrl`. -/
def ext.HTTPUrl : String := "http.url"

/-- Go `ext.PeerService`. -/
def ext.PeerService : String := "peer.service"

/-- Go `ext.HTTPStatusCode`. -/
def ext.HTTPStatusCode : String := "http.status_code"

/-! ## The opentracing API, as effects on the world -/

/-- Go `opentracing.InitGlobalTracer(tracer)`. -/
def InitGlobalTracer (tracer : Tracer) (s : World) : World :=
  { s with globalTracer := some tracer }

/-- Start a span named `name` under `parent`: the span receives the next identity. -/
def startSpanWith (name : String) (parent : Option Nat) (s : World) : Nat × World :=
  (s.nextSpan,
   { s with log := s.log ++ [Event.spanStart s.nextSpan name parent],
            nextSpan := s.nextSpan + 1 })

/-- Go `opentracing.StartSpan(name)`: a root span. -/
def StartSpan (name : String) (s : World) : Nat × World :=
  startSpanWith name none s

/-- Go `opentracing.ContextWithSpan(ctx, span)`. -/
def ContextWithSpan (_ctx : Context) (span : Nat) : Context :=
  { span := some span }

/-- Go `opentracing.SpanFromContext(ctx)`; `none` is the nil span. -/
def SpanFromContext (ctx : Context) : Option Nat :=
  ctx.span

/-- Go `opentracing.StartSpanFromContext(ctx, name)`: child of the span in `ctx` when
there is one; returns the span and `ContextWithSpan(ctx, span)`. -/
def StartSpanFromContext (ctx : Context) (name : String) (s : World) :
    Nat × Context × World :=
  let (span, s1) := startSpanWith name (SpanFromContext ctx) s
  (span, ContextWithSpan ctx span, s1)

/-- Go `span.SetTag(key, value)`. -/
def SetTag (span : Nat) (key : String) (value : TagValue) (s : World) : World :=
  s.record (Event.setTag span key value)

/-- Go `span.SetOperationName(name)`. -/
def SetOperationName (span : Nat) (name : String) (s : World) : World :=
  s.record (Event.setOperationName span name)

/-- Go `span.Finish()`. -/
def Finish (span : Nat) (s : World) : World :=
  s.record (Event.finish span)

/-- Go `defer cleanup()` at the head of a function returning a value: `cleanup` runs
after `body`, whichever `return` ended it. -/
def deferred {α : Type} (cleanup : World → World) (body : World → α × World) :
    World → α × World :=
  fun s => let (a, s1) := body s; (a, cleanup s1)

/-- Go `defer cleanup()` at the head of a handler body: `cleanup` runs when `body`
returns and also when it panics; a panic keeps propagating. -/
def deferredH (cleanup : World → World) (body : World → World × Option String) :
    World → World × Option String :=
  fun s => let (s1, p) := body s; (cleanup s1, p)

/-- Go `r.Context()`. -/
def reqContext (r : ReqPtr) (s : World) : Context :=
  (s.heap r).ctx

/-- Go `r.WithContext(ctx)`: a shallow copy of `*r` with the context replaced, at a
fresh address. -/
def WithContext (r : ReqPtr) (ctx : Context) (s : World) : ReqPtr × World :=
  (s.nextReq,
   { s with heap := fun q => if q = s.nextReq then { s.heap r with ctx := ctx } else s.heap q,
            nextReq := s.nextReq + 1 })

/-- Go `w.WriteHeader(code)`. -/
def WriteHeader (w : ResponseWriter) (code : Nat) (s : World) : World :=
  s.record (Event.writeHeader w code)

/-- The panic value of a nil dereference. -/
def nilDereference : String :=
  "runtime error: invalid memory address or nil pointer dereference"

/-! ## `main.go` -/

/-- Go `zipkinHTTPEndpoint`. -/
def zipkinHTTPEndpoint : String := "http://localhost:9411/api/v1/spans"

/-- Go `debug`. -/
def debug : Bool := false

/-- Go `sameSpan`. -/
def sameSpan : Bool := true

/-- Go `traceID128Bit`. -/
def traceID128Bit : Bool := true

/-- Go `type zipkinParams struct`. -/
structure zipkinParams where
  serviceHostPort : String
  serviceName : String
  serviceEndpoint : String
  deriving DecidableEq, Repr

/-- The body of `makeFirstRequest` and of `makeSecondRequest`: the two Go functions are
the same text except for the word given to `fmt.Sprintf("%s %s", "GET", word)` and the
path appended to `zp.serviceHostPort`.
Result: the returned `error` (nil as `none`) and the world. -/
def makeRequest (word path : String) (env : Env) (ctx : Context) (zp : zipkinParams)
    (s : World) : Option String × World :=
  let (span, _ctx, s1) := StartSpanFromContext ctx ("GET" ++ " " ++ word) s
  deferred (Finish span) (fun s1 =>
    match NewRequest env http.MethodGet (zp.serviceHostPort ++ path) with
    | .error err => (some err, s1)
    | .ok req =>
      match env.clientDo req with
      | .error err => (some err, s1)
      | .ok resp =>
        let s2 := SetTag span ext.SpanKind ext.SpanKindRPCClient s1
        let s3 := SetTag span ext.HTTPMethod (.str req.Method) s2
        let s4 := SetTag span ext.HTTPUrl (.str (env.urlString req.URL)) s3
        let s5 := SetTag span ext.PeerService (.str zp.serviceName) s4
        match resp with
        | some rp => (none, SetTag span ext.HTTPStatusCode (.int rp.StatusCode) s5)
        | none => (none, s5)) s1

/-- Go `makeFirstRequest(ctx, zp)`. -/
def makeFirstRequest (env : Env) (ctx : Context) (zp : zipkinParams) (s : World) :
    Option String × World :=
  makeRequest "first" "/first" env ctx zp s

/-- Go `makeSecondRequest(ctx, zp)`. -/
def makeSecondRequest (env : Env) (ctx : Context) (zp : zipkinParams) (s : World) :
    Option String × World :=
  makeRequest "second" "/second" env ctx zp s

/-- Go `sendToZipkin(zp)`. Result: the returned `error` (nil as `none`) and the world. -/
def sendToZipkin (env : Env) (zp : zipkinParams) (s : World) : Option String × World :=
  match env.newHTTPCollector zipkinHTTPEndpoint with
  | .error err => (some err, s)
  | .ok collector =>
    let recorder : Recorder := ⟨collector, debug, zp.serviceHostPort, zp.serviceName⟩
    match env.newTracer recorder sameSpan traceID128Bit with
    | .error err => (some err, s)
    | .ok tracer =>
      let s1 := InitGlobalTracer tracer s
      let (span, s2) := StartSpan "Server" s1
      let ctx := ContextWithSpan Context.Background span
      let (_, s3) := makeFirstRequest env ctx zp s2
      let (_, s4) := makeSecondRequest env ctx zp s3
      let s5 := Finish span s4
      let s6 := s5.record Event.collectorClose
      (none, s6)

/-! ## `example_two_alternate_zipkin/main.go` -/

/-- Go `createZipkin(zp)` of example two: the context (or the error) and the world. -/
def createZipkin (env : Env) (zp : zipkinParams) (s : World) : Except String Context × World :=
  match env.newHTTPCollector zipkinHTTPEndpoint with
  | .error err => (.error err, s)
  | .ok collector =>
    let recorder : Recorder := ⟨collector, debug, zp.serviceHostPort, zp.serviceName⟩
    match env.newTracer recorder sameSpan traceID128Bit with
    | .error err => (.error err, s)
    | .ok tracer =>
      let s1 := InitGlobalTracer tracer s
      let (span, s2) := StartSpan "Server" s1
      let ctx := ContextWithSpan Context.Background span
      let s3 := Finish span s2
      (.ok ctx, s3)

/-- Go `fooHandler{ctx}.ServeHTTP`. -/
def fooHandler (ctx : Context) : HandlerFunc :=
  fun _w _r s =>
    let (fooSpan, _, s1) := StartSpanFromContext ctx "fooHandler" s
    deferredH (Finish fooSpan) (fun s1 =>
      let s2 := SetOperationName fooSpan "GET fooEndpoint" s1
      let s3 := SetTag fooSpan "tag" (.str "1") s2
      (s3, none)) s1

/-- Go `barHandler{ctx}.ServeHTTP`. -/
def barHandler (ctx : Context) : HandlerFunc :=
  fun _w _r s =>
    let (barSpan, _, s1) := StartSpanFromContext ctx "barHandler" s
    deferredH (Finish barSpan) (fun s1 =>
      let s2 := SetOperationName barSpan "GET barEndpoint" s1
      let s3 := SetTag barSpan "tag" (.str "2") s2
      (s3, none)) s1

/-- Go `type multiplexer map[string]http.Handler`: a lookup from the path string to the
handler stored under exactly that key. -/
abbrev multiplexer := String → Option HandlerFunc

/-- Go `multiplexer.ServeHTTP`. -/
def multiplexer.ServeHTTP (m : multiplexer) : HandlerFunc :=
  fun w r s =>
    match m (s.heap r).RequestURI with
    | some handler => handler w r s
    | none => (WriteHeader w http.StatusNotFound s, none)

/-- Go `endpoints(h)`. -/
def endpoints (h : HandlerFunc) : HandlerFunc :=
  fun w r s => h w r s

/-- The table built in `main` of example two: `"/foo/"` and `"/bar/"`. -/
def mainMux (ctx : Context) : multiplexer :=
  fun uri =>
    if uri = "/foo/" then some (fooHandler ctx)
    else if uri = "/bar/" then some (barHandler ctx)
    else none

/-- A table whose handlers only record their own key: `keys` are the keys of the map. -/
def recordingMux (keys : List String) : multiplexer :=
  fun uri => if uri ∈ keys then some (recordingHandler uri) else none

/-! ## `example_three_middleware/main.go` -/

/-- Go `type handlerOne struct`. -/
structure handlerOne where
  clientName : String
  serviceName : String
  deriving DecidableEq, Repr

/-- Go `handlerOne.createZipkin(r)` of example three. -/
def handlerOne.createZipkin (env : Env) (h : handlerOne) (r : ReqPtr) (s : World) :
    Except String Context × World :=
  match env.newHTTPCollector zipkinHTTPEndpoint with
  | .error err => (.error err, s)
  | .ok collector =>
    let recorder : Recorder := ⟨collector, debug, "127.0.0.1", h.serviceName⟩
    match env.newTracer recorder sameSpan traceID128Bit with
    | .error err => (.error err, s)
    | .ok tracer =>
      let s1 := InitGlobalTracer tracer s
      let (span, s2) := StartSpan "Server" s1
      let ctx := ContextWithSpan (reqContext r s2) span
      let s3 := Finish span s2
      (.ok ctx, s3)

/-- Go `handlerOne.sendToZipkinBefore(next)`. A nil span makes `span.Finish` panic. -/
def handlerOne.sendToZipkinBefore (env : Env) (_h : handlerOne) : middleware :=
  fun next => fun w r s =>
    match SpanFromContext (reqContext r s) with
    | none => (s, some nilDereference)
    | some span =>
      deferredH (Finish span) (fun s =>
        let s1 := SetOperationName span
          ("before " ++ (s.heap r).Method ++ " " ++ (s.heap r).URL.Path) s
        let s2 := SetTag span "url" (.str (env.urlString (s1.heap r).URL)) s1
        next w r s2) s

/-- Go `handlerOne.sendToZipkinAfter(next)`. -/
def handlerOne.sendToZipkinAfter (env : Env) (h : handlerOne) : middleware :=
  fun next => fun w r s =>
    match h.createZipkin env r s with
    | (.error err, s1) => (s1, some err)
    | (.ok ctx, s1) =>
      let (r, s2) := WithContext r ctx s1
      match next w r s2 with
      | (s3, some p) => (s3, some p)
      | (s3, none) =>
        let (span, _, s4) := StartSpanFromContext ctx h.clientName s3
        deferredH (Finish span) (fun s4 =>
          let s5 := SetOperationName span
            ("after " ++ (s4.heap r).Method ++ " " ++ (s4.heap r).URL.Path) s4
          match (s5.heap r).Response with
          | none => (s5, some nilDereference)
          | some resp =>
            let s6 := SetTag span "statusCode" (.int resp.StatusCode) s5
            let s7 := SetTag span "url" (.str (env.urlString (s6.heap r).URL)) s6
            (s7, none)) s4

/-- Go `handlerOne.home` of example three: `r.Response = &http.Response{StatusCode: 400}`. -/
def handlerOne.home (_h : handlerOne) : HandlerFunc :=
  fun _w r s =>
    ({ s with heap := fun q => if q = r then { s.heap r with Response := some ⟨400⟩ }
                                else s.heap q }, none)

/-- The handler registered for `/home` in `main` of example three. -/
def exampleThree (env : Env) (h : handlerOne) : HandlerFunc :=
  chainMiddleware [h.sendToZipkinAfter env, h.sendToZipkinBefore env] h.home

/-! ## `example_four_middleware_logging/main.go` -/

/-- Go `handlerOne.logBefore(next)`. -/
def handlerOne.logBefore (env : Env) (_h : handlerOne) : middleware :=
  fun next => fun w r s =>
    let (uuid, err) := env.generateUUID s
    let s1 := match err with
      | some e => s.record (Event.dump e)
      | none => s
    let s2 := s1.record (Event.dump uuid)
    next w r s2

/-- Go `handlerOne.logAfter(next)`. -/
def handlerOne.logAfter (_h : handlerOne) : middleware :=
  fun next => fun w r s =>
    let s1 := s.record (Event.dump (s.heap r).Header)
    match next w r s1 with
    | (s2, some p) => (s2, some p)
    | (s2, none) => (s2.record (Event.println "After"), none)

/-- Go `handlerOne.home` of example four. -/
def handlerOne.homeLogging (_h : handlerOne) : HandlerFunc :=
  fun _w r s =>
    let s1 := s.record (Event.println "Home")
    ({ s1 with heap := fun q => if q = r then { s1.heap r with Response := some ⟨400⟩ }
                                 else s1.heap q }, none)

/-! ## Observations on the log -/

/-- How many times `span.Finish()` was called on span `id`. -/
def finishCount (id : Nat) (log : List Event) : Nat :=
  log.count (Event.finish id)

/-- The tags set on span `id`, in order. -/
def tagsOf (id : Nat) : List Event → List (String × TagValue)
  | [] => []
  | Event.setTag i k v :: rest => if i = id then (k, v) :: tagsOf id rest else tagsOf id rest
  | _ :: rest => tagsOf id rest

/-- Whether a tag with key `key` was set on span `id`. -/
def hasTag (id : Nat) (key : String) (log : List Event) : Bool :=
  (tagsOf id log).any (fun kv => kv.1 == key)

/-- The spans started, in order: identity, name, parent. -/
def spansStarted : List Event → List (Nat × String × Option Nat)
  | [] => []
  | Event.spanStart i n p :: rest => (i, n, p) :: spansStarted rest
  | _ :: rest => spansStarted rest

/-- The events `s1` has recorded beyond those of `s0`. -/
def eventsSince (s0 s1 : World) : List Event :=
  s1.log.drop s0.log.length

/-- Whether no `SetTag` on span `id` follows a `Finish` of span `id`. -/
def tagsPrecedeFinish (id : Nat) : List Event → Bool
  | [] => true
  | Event.finish i :: rest =>
    if i = id then (tagsOf id rest).isEmpty else tagsPrecedeFinish id rest
  | _ :: rest => tagsPrecedeFinish id rest

/-- The tags the helper sets once the call has returned a response pointer. -/
def clientTags (env : Env) (zp : zipkinParams) (req : Request) (resp : Option Response) :
    List (String × TagValue) :=
  [(ext.SpanKind, ext.SpanKindRPCClient), (ext.HTTPMethod, .str req.Method),
   (ext.HTTPUrl, .str (env.urlString req.URL)), (ext.PeerService, .str zp.serviceName)]
  ++ (match resp with
      | some rp => [(ext.HTTPStatusCode, .int rp.StatusCode)]
      | none => [])

/-- An environment for concrete runs: everything succeeds, URLs render as they were
written, the downstream answers 200 on `/first` and 401 otherwise. -/
def Env.test : Env where
  newHTTPCollector := fun url => .ok ⟨url⟩
  newTracer := fun rec b1 b2 => .ok ⟨rec, b1, b2⟩
  parseURL := fun u => .ok ⟨"", "", u, ""⟩
  urlString := fun u => u.Path
  clientDo := fun req =>
    if req.URL.Path = "http://svc/first" then .ok (some ⟨200⟩) else .ok (some ⟨401⟩)
  generateUUID := fun _ => ("6ba7b810", none)

/-- Split a list of characters at the first `c`, which is dropped. -/
def splitAtChar (c : Char) : List Char → List Char × List Char
  | [] => ([], [])
  | x :: xs =>
    if x = c then ([], xs)
    else ((splitAtChar c xs).1.cons x, (splitAtChar c xs).2)

/-- The escaping `(*url.URL).String()` applies to a path: a space is rendered `%20`. -/
def escapePath : List Char → List Char
  | [] => []
  | x :: xs => if x = Char.ofNat 32 then '%' :: '2' :: '0' :: escapePath xs
               else x :: escapePath xs

/-- Go `url.Parse` on a URL of the form `scheme://host/path`: the scheme is lowercased,
host and path are kept as written. -/
def parseAbsoluteURL (raw : String) : Except String URL :=
  match (splitAtChar ':' raw.data).2 with
  | '/' :: '/' :: hostPath =>
    .ok ⟨String.mk ((splitAtChar ':' raw.data).1.map Char.toLower),
         String.mk (splitAtChar '/' hostPath).1,
         String.mk ('/' :: (splitAtChar '/' hostPath).2), ""⟩
  | _ => .error "unsupported URL"

/-- Go `(*url.URL).String()` on a URL with scheme, host and path: the path is escaped. -/
def renderURL (u : URL) : String :=
  u.Scheme ++ "://" ++ u.Host ++ String.mk (escapePath u.Path.data)

/-- An environment whose `url.Parse` and `URL.String` lowercase the scheme and escape the
path as `net/url` does; everything succeeds and the downstream answers 200 on a path
ending in `/first` and 401 otherwise. -/
def Env.netURL : Env :=
  { Env.test with
    parseURL := parseAbsoluteURL
    urlString := renderURL
    clientDo := fun req =>
      if req.URL.Path = "/a b/first" then .ok (some ⟨200⟩) else .ok (some ⟨401⟩) }

/-- Parameters whose host is written with an upper-case scheme and a space in its path. -/
def zpUnnormalised : zipkinParams :=
  ⟨"HTTP://127.0.0.1:18471/a b", "Test Service", "HTTP://127.0.0.1:18471/a b"⟩

/-- An environment whose downstream refuses the connection. -/
def Env.refused : Env :=
  { Env.test with clientDo := fun _ => .error "connection refused" }

/-- An environment whose identifier generation fails. -/
def Env.noUUID : Env :=
  { Env.test with generateUUID := fun _ => ("", some "failed to read random bytes") }

/-- The parameters of the test, with a fixed host. -/
def zpTest : zipkinParams := ⟨"http://svc", "Test Service", "http://svc"⟩

/-- The empty world in which every request pointer holds a `GET` whose `RequestURI` is
`uri`. -/
def World.withURI (uri : String) : World :=
  { World.empty with heap := fun _ => { Request.blank with RequestURI := uri } }

/-- The value `main` of examples three and four gives `handlerOne`. -/
def h1 : handlerOne := ⟨"dummyClient", "dummyServer"⟩

/-! ## Lemmas on the world and on the chain -/

theorem World.recordAll_nil (s : World) : s.recordAll [] = s := by
  cases s; simp [World.recordAll]

theorem World.record_recordAll (s : World) (e : Event) (es : List Event) :
    (s.record e).recordAll es = s.recordAll (e :: es) := by
  cases s; simp [World.record, World.recordAll]

theorem World.recordAll_record (s : World) (es : List Event) (e : Event) :
    (s.recordAll es).record e = s.recordAll (es ++ [e]) := by
  cases s; simp [World.record, World.recordAll]

theorem World.recordAll_log (s : World) (es : List Event) :
    (s.recordAll es).log = s.log ++ es := rfl

/-- After `n` rounds the loop has wrapped `last` in the units `mw[n-1]`, ..., `mw[0]`,
innermost first. -/
theorem chainLoop_take (mw : List middleware) :
    ∀ (n : Nat) (last : HandlerFunc), n ≤ mw.length →
      chainLoop mw n last = (mw.take n).foldr (fun m acc => m acc) last := by
  intro n
  induction n with
  | zero => intro last _; simp [chainLoop]
  | succ k ih =>
    intro last hk
    have hlt : k < mw.length := hk
    have hget : mw[k]? = some mw[k] := List.getElem?_eq_getElem hlt
    have htake : mw.take (k + 1) = mw.take k ++ [mw[k]] := by
      rw [List.take_succ, hget]; rfl
    have hstep : chainLoop mw (k + 1) last = chainLoop mw k (mw[k] last) := by
      simp only [chainLoop, hget]
    rw [hstep, ih _ (Nat.le_of_lt hlt), htake, List.foldr_append]
    rfl

/-- The handler `chainMiddleware` returns is the right fold of the units over `final`:
the first unit is applied last and so is outermost. -/
theorem chainMiddleware_eq_foldr (mw : List middleware) (final : HandlerFunc) :
    chainMiddleware mw final = mw.foldr (fun m acc => m acc) final := by
  funext w r
  simp [chainMiddleware, chainLoop_take mw mw.length final (Nat.le_refl _)]

/-- A nest of recording units around `T`: when `T` returns, the post-logic of every
unit has run, innermost first. -/
theorem foldr_recordingUnit_returns (names : List String) (T : HandlerFunc)
    (w : ResponseWriter) (r : ReqPtr) :
    ∀ (s s1 : World),
      T w r (s.recordAll (names.map Event.before)) = (s1, none) →
      (names.map recordingUnit).foldr (fun m acc => m acc) T w r s
        = (s1.recordAll (names.reverse.map Event.after), none) := by
  induction names with
  | nil =>
    intro s s1 h
    simpa [World.recordAll_nil] using h
  | cons a rest ih =>
    intro s s1 h
    have h1 : T w r ((s.record (Event.before a)).recordAll (rest.map Event.before))
        = (s1, none) := by
      rw [World.record_recordAll]; simpa using h
    have h2 := ih (s.record (Event.before a)) s1 h1
    simp only [List.map_cons, List.foldr_cons, recordingUnit]
    rw [h2]
    simp [World.recordAll_record]

/-- A nest of recording units around `T`: when `T` panics, the panic propagates and no
post-logic runs. -/
theorem foldr_recordingUnit_panics (names : List String) (T : HandlerFunc)
    (w : ResponseWriter) (r : ReqPtr) (p : String) :
    ∀ (s s1 : World),
      T w r (s.recordAll (names.map Event.before)) = (s1, some p) →
      (names.map recordingUnit).foldr (fun m acc => m acc) T w r s = (s1, some p) := by
  induction names with
  | nil =>
    intro s s1 h
    simpa [World.recordAll_nil] using h
  | cons a rest ih =>
    intro s s1 h
    have h1 : T w r ((s.record (Event.before a)).recordAll (rest.map Event.before))
        = (s1, some p) := by
      rw [World.record_recordAll]; simpa using h
    have h2 := ih (s.record (Event.before a)) s1 h1
    simp only [List.map_cons, List.foldr_cons, recordingUnit]
    rw [h2]

/-! ## C1, C2: the chain builder -/

/-- C1: for every list of recording units `u1..un` and every terminal handler `T` that
returns on the request, one invocation of `chainMiddleware(u1, ..., un)(T)` on `(w, r)`
runs `u1.before, ..., un.before`, then `T` once on the same `(w, r)`, then
`un.after, ..., u1.after`, and returns; with the terminal that records its own call the
log grows by exactly `u1.before, ..., un.before, T, un.after, ..., u1.after`. -/
theorem chainMiddleware_call_sequence (names : List String) (T : HandlerFunc)
    (w : ResponseWriter) (r : ReqPtr) (s s1 : World)
    (hT : T w r (s.recordAll (names.map Event.before)) = (s1, none)) :
    chainMiddleware (names.map recordingUnit) T w r s
        = (s1.recordAll (names.reverse.map Event.after), none)
    ∧ (chainMiddleware (names.map recordingUnit) (recordingHandler "T") w r s).1.log
        = s.log ++ (names.map Event.before ++ [Event.call "T" w r]
            ++ names.reverse.map Event.after)
    ∧ (chainMiddleware (names.map recordingUnit) (recordingHandler "T") w r s).2 = none := by
  have hrec : recordingHandler "T" w r (s.recordAll (names.map Event.before))
      = ((s.recordAll (names.map Event.before)).record (Event.call "T" w r), none) := rfl
  refine ⟨?_, ?_, ?_⟩
  · rw [chainMiddleware_eq_foldr]
    exact foldr_recordingUnit_returns names T w r s s1 hT
  · rw [chainMiddleware_eq_foldr, foldr_recordingUnit_returns names _ w r s _ hrec]
    simp [World.recordAll, World.record]
  · rw [chainMiddleware_eq_foldr, foldr_recordingUnit_returns names _ w r s _ hrec]

/-- Witness of C1 at the units `[A, B, C]`, the recording terminal and the empty world. -/
theorem chainMiddleware_call_sequence_witness :
    (chainMiddleware (["A", "B", "C"].map recordingUnit) (recordingHandler "T") 7 0
        World.empty).1.log
      = [Event.before "A", Event.before "B", Event.before "C", Event.call "T" 7 0,
         Event.after "C", Event.after "B", Event.after "A"] :=
  (chainMiddleware_call_sequence ["A", "B", "C"] (recordingHandler "T") 7 0 World.empty
    _ rfl).2.1

/-- C2: with no units, `chainMiddleware()(T)` on `(w, r)` is `T` on `(w, r)`: same final
world, same outcome, for every handler, writer, request and starting world. -/
theorem chainMiddleware_empty (T : HandlerFunc) (w : ResponseWriter) (r : ReqPtr)
    (s : World) :
    chainMiddleware [] T w r s = T w r s := by
  simp [chainMiddleware, chainLoop]

/-! ## Lemmas on the outbound request helper -/

theorem eventsSince_append (s0 s1 : World) (es : List Event)
    (h : s1.log = s0.log ++ es) : eventsSince s0 s1 = es := by
  simp [eventsSince, h]

/-- When `http.NewRequest` fails the error is returned, the span is started and finished. -/
theorem makeRequest_newRequest_error (word path : String) (env : Env) (ctx : Context)
    (zp : zipkinParams) (s : World) (err : String)
    (h : NewRequest env http.MethodGet (zp.serviceHostPort ++ path) = .error err) :
    (makeRequest word path env ctx zp s).1 = some err
    ∧ (makeRequest word path env ctx zp s).2.log
        = s.log ++ [Event.spanStart s.nextSpan ("GET" ++ " " ++ word) (SpanFromContext ctx),
                    Event.finish s.nextSpan] := by
  simp [makeRequest, StartSpanFromContext, startSpanWith, deferred, h, Finish, World.record]

/-- When `http.Client.Do` fails the error is returned, the span is started and finished,
and nothing is tagged. -/
theorem makeRequest_do_error (word path : String) (env : Env) (ctx : Context)
    (zp : zipkinParams) (s : World) (req : Request) (err : String)
    (h : NewRequest env http.MethodGet (zp.serviceHostPort ++ path) = .ok req)
    (hdo : env.clientDo req = .error err) :
    (makeRequest word path env ctx zp s).1 = some err
    ∧ (makeRequest word path env ctx zp s).2.log
        = s.log ++ [Event.spanStart s.nextSpan ("GET" ++ " " ++ word) (SpanFromContext ctx),
                    Event.finish s.nextSpan] := by
  simp [makeRequest, StartSpanFromContext, startSpanWith, deferred, h, hdo, Finish,
    World.record]

/-- When `http.Client.Do` returns, nil is returned, the span is started, tagged and finished. -/
theorem makeRequest_do_ok (word path : String) (env : Env) (ctx : Context)
    (zp : zipkinParams) (s : World) (req : Request) (resp : Option Response)
    (h : NewRequest env http.MethodGet (zp.serviceHostPort ++ path) = .ok req)
    (hdo : env.clientDo req = .ok resp) :
    (makeRequest word path env ctx zp s).1 = none
    ∧ (makeRequest word path env ctx zp s).2.log
        = s.log ++ (Event.spanStart s.nextSpan ("GET" ++ " " ++ word) (SpanFromContext ctx)
            :: ((clientTags env zp req resp).map
                  (fun kv => Event.setTag s.nextSpan kv.1 kv.2)
                ++ [Event.finish s.nextSpan])) := by
  cases resp <;>
    simp [makeRequest, StartSpanFromContext, startSpanWith, deferred, h, hdo, Finish,
      World.record, SetTag, clientTags]

/-- The span counter advances by one on every path of the helper. -/
theorem makeRequest_nextSpan (word path : String) (env : Env) (ctx : Context)
    (zp : zipkinParams) (s : World) :
    (makeRequest word path env ctx zp s).2.nextSpan = s.nextSpan + 1 := by
  cases h : NewRequest env http.MethodGet (zp.serviceHostPort ++ path) with
  | error e =>
    simp [makeRequest, StartSpanFromContext, startSpanWith, deferred, h, Finish, World.record]
  | ok req =>
    cases hdo : env.clientDo req with
    | error e =>
      simp [makeRequest, StartSpanFromContext, startSpanWith, deferred, h, hdo, Finish,
        World.record]
    | ok resp =>
      cases resp <;>
        simp [makeRequest, StartSpanFromContext, startSpanWith, deferred, h, hdo, Finish,
          World.record, SetTag]

theorem tagsOf_map_setTag (id : Nat) (kvs : List (String × TagValue)) (tail : List Event) :
    tagsOf id (kvs.map (fun kv => Event.setTag id kv.1 kv.2) ++ tail)
      = kvs ++ tagsOf id tail := by
  induction kvs with
  | nil => simp
  | cons kv rest ih => simp [tagsOf, ih]

theorem finishCount_map_setTag (id : Nat) (kvs : List (String × TagValue))
    (tail : List Event) :
    finishCount id (kvs.map (fun kv => Event.setTag id kv.1 kv.2) ++ tail)
      = finishCount id tail := by
  induction kvs with
  | nil => simp
  | cons kv rest ih =>
    simp only [List.map_cons, List.cons_append, finishCount] at ih ⊢
    rw [List.count_cons_of_ne (by simp), ih]

theorem tagsPrecedeFinish_map_setTag (id : Nat) (kvs : List (String × TagValue))
    (tail : List Event) :
    tagsPrecedeFinish id (kvs.map (fun kv => Event.setTag id kv.1 kv.2) ++ tail)
      = tagsPrecedeFinish id tail := by
  induction kvs with
  | nil => simp
  | cons kv rest ih => simp [tagsPrecedeFinish, ih]

/-- What one run of the helper adds to the log, on every exit path: the start of its
span, then some tags on that span, then one finish of that span. -/
theorem makeRequest_shape (word path : String) (env : Env) (ctx : Context)
    (zp : zipkinParams) (s : World) :
    ∃ kvs : List (String × TagValue),
      (makeRequest word path env ctx zp s).2.log
        = s.log ++ (Event.spanStart s.nextSpan ("GET" ++ " " ++ word) (SpanFromContext ctx)
            :: (kvs.map (fun kv => Event.setTag s.nextSpan kv.1 kv.2)
                ++ [Event.finish s.nextSpan])) := by
  cases h : NewRequest env http.MethodGet (zp.serviceHostPort ++ path) with
  | error e =>
    exact ⟨[], by simpa using (makeRequest_newRequest_error word path env ctx zp s e h).2⟩
  | ok req =>
    cases hdo : env.clientDo req with
    | error e =>
      exact ⟨[], by simpa using (makeRequest_do_error word path env ctx zp s req e h hdo).2⟩
    | ok resp =>
      exact ⟨clientTags env zp req resp,
        (makeRequest_do_ok word path env ctx zp s req resp h hdo).2⟩

theorem NewRequest_method (env : Env) (method url : String) (req : Request)
    (h : NewRequest env method url = .ok req) : req.Method = method := by
  unfold NewRequest at h
  cases hp : env.parseURL url with
  | error e => simp [hp] at h
  | ok u =>
    simp only [hp, Except.ok.injEq] at h
    rw [← h]

/-- The observations of one run of the helper, read off the shape of what it logged. -/
theorem makeRequest_observations (word path : String) (env : Env) (ctx : Context)
    (zp : zipkinParams) (s : World) (kvs : List (String × TagValue))
    (h : (makeRequest word path env ctx zp s).2.log
        = s.log ++ (Event.spanStart s.nextSpan ("GET" ++ " " ++ word) (SpanFromContext ctx)
            :: (kvs.map (fun kv => Event.setTag s.nextSpan kv.1 kv.2)
                ++ [Event.finish s.nextSpan]))) :
    spansStarted (eventsSince s (makeRequest word path env ctx zp s).2)
        = [(s.nextSpan, "GET" ++ " " ++ word, SpanFromContext ctx)]
    ∧ tagsOf s.nextSpan (eventsSince s (makeRequest word path env ctx zp s).2) = kvs
    ∧ finishCount s.nextSpan (eventsSince s (makeRequest word path env ctx zp s).2) = 1
    ∧ tagsPrecedeFinish s.nextSpan (eventsSince s (makeRequest word path env ctx zp s).2)
        = true
    ∧ (eventsSince s (makeRequest word path env ctx zp s).2).getLast?
        = some (Event.finish s.nextSpan) := by
  rw [eventsSince_append _ _ _ h]
  refine ⟨?_, ?_, ?_, ?_, ?_⟩
  · have hs : ∀ (l : List (String × TagValue)),
        spansStarted (l.map (fun kv => Event.setTag s.nextSpan kv.1 kv.2)
          ++ [Event.finish s.nextSpan]) = [] := by
      intro l
      induction l with
      | nil => simp [spansStarted]
      | cons kv rest ih => simp [spansStarted, ih]
    simp [spansStarted, hs]
  · simp [tagsOf, tagsOf_map_setTag]
  · have := finishCount_map_setTag s.nextSpan kvs [Event.finish s.nextSpan]
    simp only [finishCount] at this ⊢
    rw [List.count_cons_of_ne (by simp), this]
    simp
  · simp [tagsPrecedeFinish, tagsPrecedeFinish_map_setTag, tagsOf]
  · rw [← List.cons_append, List.getLast?_concat]

/-! ## C4, C5, C6: the outbound instrumented call -/

/-- C4, as stated, fails: when the connection is refused, `makeFirstRequest` returns the
transport error and finishes its span once, but the span carries no method, URL or
peer-service tag: it carries no tag at all. -/
theorem makeFirstRequest_refused_untagged :
    (makeFirstRequest Env.refused Context.Background zpTest World.empty).1
        = some "connection refused"
    ∧ finishCount 0 (makeFirstRequest Env.refused Context.Background zpTest World.empty).2.log
        = 1
    ∧ tagsOf 0 (makeFirstRequest Env.refused Context.Background zpTest World.empty).2.log
        = []
    ∧ ¬ (hasTag 0 ext.HTTPMethod
            (makeFirstRequest Env.refused Context.Background zpTest World.empty).2.log = true
         ∧ hasTag 0 ext.HTTPUrl
            (makeFirstRequest Env.refused Context.Background zpTest World.empty).2.log = true
         ∧ hasTag 0 ext.PeerService
            (makeFirstRequest Env.refused Context.Background zpTest World.empty).2.log
              = true) := by
  decide

/-- C4 amended: whenever the HTTP client returns a transport error, `makeFirstRequest`
(and likewise `makeSecondRequest`) returns that error, the span it started is finished
exactly once, and the span carries no tag at all: neither method, URL, peer service nor
status code. -/
theorem makeRequest_transport_error (env : Env) (ctx : Context) (zp : zipkinParams)
    (s : World) :
    (∀ (req : Request) (err : String),
        NewRequest env http.MethodGet (zp.serviceHostPort ++ "/first") = .ok req →
        env.clientDo req = .error err →
        (makeFirstRequest env ctx zp s).1 = some err
        ∧ spansStarted (eventsSince s (makeFirstRequest env ctx zp s).2)
            = [(s.nextSpan, "GET first", SpanFromContext ctx)]
        ∧ finishCount s.nextSpan (eventsSince s (makeFirstRequest env ctx zp s).2) = 1
        ∧ tagsOf s.nextSpan (eventsSince s (makeFirstRequest env ctx zp s).2) = []
        ∧ hasTag s.nextSpan ext.HTTPStatusCode
            (eventsSince s (makeFirstRequest env ctx zp s).2) = false)
    ∧ (∀ (req : Request) (err : String),
        NewRequest env http.MethodGet (zp.serviceHostPort ++ "/second") = .ok req →
        env.clientDo req = .error err →
        (makeSecondRequest env ctx zp s).1 = some err
        ∧ spansStarted (eventsSince s (makeSecondRequest env ctx zp s).2)
            = [(s.nextSpan, "GET second", SpanFromContext ctx)]
        ∧ finishCount s.nextSpan (eventsSince s (makeSecondRequest env ctx zp s).2) = 1
        ∧ tagsOf s.nextSpan (eventsSince s (makeSecondRequest env ctx zp s).2) = []
        ∧ hasTag s.nextSpan ext.HTTPStatusCode
            (eventsSince s (makeSecondRequest env ctx zp s).2) = false) := by
  constructor
  · intro req err h hdo
    have hl := makeRequest_do_error "first" "/first" env ctx zp s req err h hdo
    have ho := makeRequest_observations "first" "/first" env ctx zp s [] (by simpa using hl.2)
    refine ⟨hl.1, ho.1, ho.2.2.1, ho.2.1, ?_⟩
    unfold hasTag makeFirstRequest
    rw [ho.2.1]; rfl
  · intro req err h hdo
    have hl := makeRequest_do_error "second" "/second" env ctx zp s req err h hdo
    have ho := makeRequest_observations "second" "/second" env ctx zp s []
      (by simpa using hl.2)
    refine ⟨hl.1, ho.1, ho.2.2.1, ho.2.1, ?_⟩
    unfold hasTag makeSecondRequest
    rw [ho.2.1]; rfl

/-- Witness of the amended C4: the refused connection on `/second`, from the empty world. -/
theorem makeRequest_transport_error_witness :
    (makeSecondRequest Env.refused Context.Background zpTest World.empty).1
        = some "connection refused"
    ∧ tagsOf 0 (eventsSince World.empty
        (makeSecondRequest Env.refused Context.Background zpTest World.empty).2) = [] :=
  have h := (makeRequest_transport_error Env.refused Context.Background zpTest
    World.empty).2 ⟨"GET", ⟨"", "", "http://svc/second", ""⟩, "", "", Context.Background, none⟩
    "connection refused" rfl rfl
  ⟨h.1, h.2.2.2.1⟩

/-- C5: on every exit path of `makeFirstRequest` and of `makeSecondRequest` (request
construction fails, the call fails, the call succeeds) the function starts one span,
child of the span in `ctx`, finishes it exactly once, sets no tag on it after the finish,
and the finish is the last thing it does. -/
theorem makeRequest_finish_once (env : Env) (ctx : Context) (zp : zipkinParams)
    (s : World) :
    (spansStarted (eventsSince s (makeFirstRequest env ctx zp s).2)
        = [(s.nextSpan, "GET first", SpanFromContext ctx)]
      ∧ finishCount s.nextSpan (eventsSince s (makeFirstRequest env ctx zp s).2) = 1
      ∧ tagsPrecedeFinish s.nextSpan (eventsSince s (makeFirstRequest env ctx zp s).2) = true
      ∧ (eventsSince s (makeFirstRequest env ctx zp s).2).getLast?
          = some (Event.finish s.nextSpan))
    ∧ (spansStarted (eventsSince s (makeSecondRequest env ctx zp s).2)
        = [(s.nextSpan, "GET second", SpanFromContext ctx)]
      ∧ finishCount s.nextSpan (eventsSince s (makeSecondRequest env ctx zp s).2) = 1
      ∧ tagsPrecedeFinish s.nextSpan (eventsSince s (makeSecondRequest env ctx zp s).2) = true
      ∧ (eventsSince s (makeSecondRequest env ctx zp s).2).getLast?
          = some (Event.finish s.nextSpan)) := by
  constructor
  · obtain ⟨kvs, h⟩ := makeRequest_shape "first" "/first" env ctx zp s
    have ho := makeRequest_observations "first" "/first" env ctx zp s kvs h
    exact ⟨ho.1, ho.2.2.1, ho.2.2.2.1, ho.2.2.2.2⟩
  · obtain ⟨kvs, h⟩ := makeRequest_shape "second" "/second" env ctx zp s
    have ho := makeRequest_observations "second" "/second" env ctx zp s kvs h
    exact ⟨ho.1, ho.2.2.1, ho.2.2.2.1, ho.2.2.2.2⟩

/-- C6, as stated, fails: with `serviceHostPort = "HTTP://127.0.0.1:18471/a b"` and the
downstream answering 401 on `/second`, `makeSecondRequest` returns nil and tags the status
code 401, but the URL tag is `req.URL.String()`, here
`http://127.0.0.1:18471/a%20b/second`, and not `serviceHostPort + "/second"`. -/
theorem makeSecondRequest_url_tag_rendered :
    (makeSecondRequest Env.netURL Context.Background zpUnnormalised World.empty).1 = none
    ∧ tagsOf 0 (makeSecondRequest Env.netURL Context.Background zpUnnormalised
          World.empty).2.log
        = [(ext.SpanKind, ext.SpanKindRPCClient),
           (ext.HTTPMethod, TagValue.str "GET"),
           (ext.HTTPUrl, TagValue.str "http://127.0.0.1:18471/a%20b/second"),
           (ext.PeerService, TagValue.str "Test Service"),
           (ext.HTTPStatusCode, TagValue.int 401)]
    ∧ ¬ ((ext.HTTPUrl, TagValue.str (zpUnnormalised.serviceHostPort ++ "/second"))
          ∈ tagsOf 0 (makeSecondRequest Env.netURL Context.Background zpUnnormalised
              World.empty).2.log) := by
  decide

/-- C6 amended: whenever the request is built and the downstream answers with any status
code `code` (200, 401, ...), `makeFirstRequest` (and likewise `makeSecondRequest`) returns
nil, finishes its span once, and the span carries exactly the tags span kind, HTTP method
`GET`, URL `req.URL.String()` of the request built from `serviceHostPort + "/first"`
(`"/second"`), peer service and status code `code`: a non-2xx status is not an error. The
URL tag is `serviceHostPort + "/first"` itself exactly when the URL renders as written. -/
theorem makeRequest_status_tagged (env : Env) (ctx : Context) (zp : zipkinParams)
    (s : World) :
    (∀ (req : Request) (code : Int),
        NewRequest env http.MethodGet (zp.serviceHostPort ++ "/first") = .ok req →
        env.clientDo req = .ok (some ⟨code⟩) →
        (makeFirstRequest env ctx zp s).1 = none
        ∧ tagsOf s.nextSpan (eventsSince s (makeFirstRequest env ctx zp s).2)
            = [(ext.SpanKind, ext.SpanKindRPCClient),
               (ext.HTTPMethod, TagValue.str "GET"),
               (ext.HTTPUrl, TagValue.str (env.urlString req.URL)),
               (ext.PeerService, TagValue.str zp.serviceName),
               (ext.HTTPStatusCode, TagValue.int code)]
        ∧ finishCount s.nextSpan (eventsSince s (makeFirstRequest env ctx zp s).2) = 1
        ∧ ((ext.HTTPUrl, TagValue.str (zp.serviceHostPort ++ "/first"))
              ∈ tagsOf s.nextSpan (eventsSince s (makeFirstRequest env ctx zp s).2)
            ↔ env.urlString req.URL = zp.serviceHostPort ++ "/first"))
    ∧ (∀ (req : Request) (code : Int),
        NewRequest env http.MethodGet (zp.serviceHostPort ++ "/second") = .ok req →
        env.clientDo req = .ok (some ⟨code⟩) →
        (makeSecondRequest env ctx zp s).1 = none
        ∧ tagsOf s.nextSpan (eventsSince s (makeSecondRequest env ctx zp s).2)
            = [(ext.SpanKind, ext.SpanKindRPCClient),
               (ext.HTTPMethod, TagValue.str "GET"),
               (ext.HTTPUrl, TagValue.str (env.urlString req.URL)),
               (ext.PeerService, TagValue.str zp.serviceName),
               (ext.HTTPStatusCode, TagValue.int code)]
        ∧ finishCount s.nextSpan (eventsSince s (makeSecondRequest env ctx zp s).2) = 1
        ∧ ((ext.HTTPUrl, TagValue.str (zp.serviceHostPort ++ "/second"))
              ∈ tagsOf s.nextSpan (eventsSince s (makeSecondRequest env ctx zp s).2)
            ↔ env.urlString req.URL = zp.serviceHostPort ++ "/second")) := by
  constructor
  · intro req code h hdo
    have hl := makeRequest_do_ok "first" "/first" env ctx zp s req _ h hdo
    have ho := makeRequest_observations "first" "/first" env ctx zp s _ hl.2
    have hm : req.Method = "GET" := NewRequest_method env _ _ req h
    have htags : tagsOf s.nextSpan (eventsSince s (makeFirstRequest env ctx zp s).2)
        = [(ext.SpanKind, ext.SpanKindRPCClient),
           (ext.HTTPMethod, TagValue.str "GET"),
           (ext.HTTPUrl, TagValue.str (env.urlString req.URL)),
           (ext.PeerService, TagValue.str zp.serviceName),
           (ext.HTTPStatusCode, TagValue.int code)] := by
      unfold makeFirstRequest
      rw [ho.2.1]
      simp [clientTags, hm]
    refine ⟨hl.1, htags, ho.2.2.1, ?_⟩
    rw [htags]
    simp [ext.SpanKind, ext.HTTPMethod, ext.HTTPUrl, ext.PeerService, ext.HTTPStatusCode,
      eq_comm]
  · intro req code h hdo
    have hl := makeRequest_do_ok "second" "/second" env ctx zp s req _ h hdo
    have ho := makeRequest_observations "second" "/second" env ctx zp s _ hl.2
    have hm : req.Method = "GET" := NewRequest_method env _ _ req h
    have htags : tagsOf s.nextSpan (eventsSince s (makeSecondRequest env ctx zp s).2)
        = [(ext.SpanKind, ext.SpanKindRPCClient),
           (ext.HTTPMethod, TagValue.str "GET"),
           (ext.HTTPUrl, TagValue.str (env.urlString req.URL)),
           (ext.PeerService, TagValue.str zp.serviceName),
           (ext.HTTPStatusCode, TagValue.int code)] := by
      unfold makeSecondRequest
      rw [ho.2.1]
      simp [clientTags, hm]
    refine ⟨hl.1, htags, ho.2.2.1, ?_⟩
    rw [htags]
    simp [ext.SpanKind, ext.HTTPMethod, ext.HTTPUrl, ext.PeerService, ext.HTTPStatusCode,
      eq_comm]

/-- Witness of the amended C6: the downstream answers 401 on `/second`; no error, status
tag 401, URL tag the rendering of the request's URL. -/
theorem makeRequest_status_tagged_witness :
    (makeSecondRequest Env.test Context.Background zpTest World.empty).1 = none
    ∧ tagsOf 0 (eventsSince World.empty
        (makeSecondRequest Env.test Context.Background zpTest World.empty).2)
      = [(ext.SpanKind, ext.SpanKindRPCClient),
         (ext.HTTPMethod, TagValue.str "GET"),
         (ext.HTTPUrl, TagValue.str "http://svc/second"),
         (ext.PeerService, TagValue.str "Test Service"),
         (ext.HTTPStatusCode, TagValue.int 401)] :=
  have h := (makeRequest_status_tagged Env.test Context.Background zpTest World.empty).2
    ⟨"GET", ⟨"", "", "http://svc/second", ""⟩, "", "", Context.Background, none⟩ 401
    rfl rfl
  ⟨h.1, h.2.1⟩

/-! ## C7: `sendToZipkin` -/

theorem count_finish_map_setTag (n m : Nat) (kvs : List (String × TagValue)) :
    List.count (Event.finish n) (kvs.map (fun kv => Event.setTag m kv.1 kv.2)) = 0 := by
  induction kvs with
  | nil => simp
  | cons kv rest ih =>
    rw [List.map_cons, List.count_cons_of_ne (by simp), ih]

theorem spansStarted_append (l1 l2 : List Event) :
    spansStarted (l1 ++ l2) = spansStarted l1 ++ spansStarted l2 := by
  induction l1 with
  | nil => simp [spansStarted]
  | cons e rest ih => cases e <;> simp [spansStarted, ih]

theorem spansStarted_map_setTag (m : Nat) (kvs : List (String × TagValue)) :
    spansStarted (kvs.map (fun kv => Event.setTag m kv.1 kv.2)) = [] := by
  induction kvs with
  | nil => simp [spansStarted]
  | cons kv rest ih => simp [spansStarted, ih]

/-- The log of a successful `sendToZipkin`: the two requests run in order from the world
in which the root span has been started, then the root span is finished and the
collector closed. -/
theorem sendToZipkin_ok_log (env : Env) (zp : zipkinParams) (s : World) (c : Collector)
    (tr : Tracer) (hc : env.newHTTPCollector zipkinHTTPEndpoint = .ok c)
    (ht : env.newTracer ⟨c, debug, zp.serviceHostPort, zp.serviceName⟩ sameSpan traceID128Bit
      = .ok tr) :
    (sendToZipkin env zp s).1 = none
    ∧ (sendToZipkin env zp s).2.log
      = (makeSecondRequest env ⟨some s.nextSpan⟩ zp
          (makeFirstRequest env ⟨some s.nextSpan⟩ zp
            (StartSpan "Server" (InitGlobalTracer tr s)).2).2).2.log
        ++ [Event.finish s.nextSpan, Event.collectorClose] := by
  simp [sendToZipkin, hc, ht, StartSpan, startSpanWith, InitGlobalTracer, ContextWithSpan,
    Finish, World.record]

/-- C7: `sendToZipkin` returns a non-nil error exactly when the collector or the tracer
cannot be constructed. When both are constructed it returns nil whatever the two requests
do, and what it logs is: the root span `Server` starts; `makeFirstRequest` runs once
(span `GET first`, child of the root); `makeSecondRequest` runs once (span `GET second`,
child of the same root); then the root span is finished, exactly once; then the collector
is closed. -/
theorem sendToZipkin_contract (env : Env) (zp : zipkinParams) (s : World) :
    ((sendToZipkin env zp s).1 ≠ none ↔
        ((∃ e, env.newHTTPCollector zipkinHTTPEndpoint = .error e)
         ∨ (∃ c e, env.newHTTPCollector zipkinHTTPEndpoint = .ok c
              ∧ env.newTracer ⟨c, debug, zp.serviceHostPort, zp.serviceName⟩ sameSpan
                  traceID128Bit = .error e)))
    ∧ (∀ (c : Collector) (tr : Tracer),
        env.newHTTPCollector zipkinHTTPEndpoint = .ok c →
        env.newTracer ⟨c, debug, zp.serviceHostPort, zp.serviceName⟩ sameSpan traceID128Bit
          = .ok tr →
        (sendToZipkin env zp s).1 = none
        ∧ (∃ kvs1 kvs2 : List (String × TagValue),
            eventsSince s (sendToZipkin env zp s).2
              = [Event.spanStart s.nextSpan "Server" none,
                 Event.spanStart (s.nextSpan + 1) "GET first" (some s.nextSpan)]
                ++ kvs1.map (fun kv => Event.setTag (s.nextSpan + 1) kv.1 kv.2)
                ++ [Event.finish (s.nextSpan + 1),
                    Event.spanStart (s.nextSpan + 2) "GET second" (some s.nextSpan)]
                ++ kvs2.map (fun kv => Event.setTag (s.nextSpan + 2) kv.1 kv.2)
                ++ [Event.finish (s.nextSpan + 2), Event.finish s.nextSpan,
                    Event.collectorClose])
        ∧ spansStarted (eventsSince s (sendToZipkin env zp s).2)
            = [(s.nextSpan, "Server", none), (s.nextSpan + 1, "GET first", some s.nextSpan),
               (s.nextSpan + 2, "GET second", some s.nextSpan)]
        ∧ finishCount s.nextSpan (eventsSince s (sendToZipkin env zp s).2) = 1) := by
  have hok : ∀ (c : Collector) (tr : Tracer),
      env.newHTTPCollector zipkinHTTPEndpoint = .ok c →
      env.newTracer ⟨c, debug, zp.serviceHostPort, zp.serviceName⟩ sameSpan traceID128Bit
        = .ok tr →
      (sendToZipkin env zp s).1 = none
      ∧ ∃ kvs1 kvs2 : List (String × TagValue),
          eventsSince s (sendToZipkin env zp s).2
            = [Event.spanStart s.nextSpan "Server" none,
               Event.spanStart (s.nextSpan + 1) "GET first" (some s.nextSpan)]
              ++ kvs1.map (fun kv => Event.setTag (s.nextSpan + 1) kv.1 kv.2)
              ++ [Event.finish (s.nextSpan + 1),
                  Event.spanStart (s.nextSpan + 2) "GET second" (some s.nextSpan)]
              ++ kvs2.map (fun kv => Event.setTag (s.nextSpan + 2) kv.1 kv.2)
              ++ [Event.finish (s.nextSpan + 2), Event.finish s.nextSpan,
                  Event.collectorClose] := by
    intro c tr hc ht
    obtain ⟨hnone, hlog⟩ := sendToZipkin_ok_log env zp s c tr hc ht
    refine ⟨hnone, ?_⟩
    obtain ⟨kvs1, h1⟩ := makeRequest_shape "first" "/first" env ⟨some s.nextSpan⟩ zp
      (StartSpan "Server" (InitGlobalTracer tr s)).2
    have hn1 := makeRequest_nextSpan "first" "/first" env ⟨some s.nextSpan⟩ zp
      (StartSpan "Server" (InitGlobalTracer tr s)).2
    obtain ⟨kvs2, h2⟩ := makeRequest_shape "second" "/second" env ⟨some s.nextSpan⟩ zp
      (makeFirstRequest env ⟨some s.nextSpan⟩ zp
        (StartSpan "Server" (InitGlobalTracer tr s)).2).2
    refine ⟨kvs1, kvs2, ?_⟩
    apply eventsSince_append
    rw [hlog]
    unfold makeSecondRequest
    rw [h2]
    unfold makeFirstRequest
    rw [hn1, h1]
    simp [StartSpan, startSpanWith, InitGlobalTracer, SpanFromContext]
  refine ⟨?_, ?_⟩
  · cases hc : env.newHTTPCollector zipkinHTTPEndpoint with
    | error e => simp [sendToZipkin, hc]
    | ok c =>
      cases ht : env.newTracer ⟨c, debug, zp.serviceHostPort, zp.serviceName⟩ sameSpan
          traceID128Bit with
      | error e => simp [sendToZipkin, hc, ht]
      | ok tr =>
        have h := (hok c tr hc ht).1
        simp [h, ht]
  · intro c tr hc ht
    obtain ⟨hnone, kvs1, kvs2, hev⟩ := hok c tr hc ht
    refine ⟨hnone, ⟨kvs1, kvs2, hev⟩, ?_, ?_⟩
    · rw [hev]
      simp [spansStarted_append, spansStarted_map_setTag, spansStarted]
    · rw [hev]
      simp [finishCount, List.count_append, count_finish_map_setTag, List.count_cons]

/-- Witness of C7: the test environment, in which the downstream answers 200 and 401. -/
theorem sendToZipkin_contract_witness :
    (sendToZipkin Env.test zpTest World.empty).1 = none
    ∧ finishCount 0 (eventsSince World.empty (sendToZipkin Env.test zpTest World.empty).2)
        = 1 :=
  have h := (sendToZipkin_contract Env.test zpTest World.empty).2
    ⟨zipkinHTTPEndpoint⟩ ⟨⟨⟨zipkinHTTPEndpoint⟩, debug, "http://svc", "Test Service"⟩,
      sameSpan, traceID128Bit⟩ rfl rfl
  ⟨h.1, h.2.2.2⟩

/-! ## C3, C8: the chain of example three -/

/-- The whole run of `chainMiddleware(sendToZipkinAfter, sendToZipkinBefore)(home)` when
the collector and the tracer can be constructed: the handler returns, and this is what
it logs. -/
theorem exampleThree_log (env : Env) (h : handlerOne) (w : ResponseWriter) (r : ReqPtr)
    (s : World) (c : Collector) (tr : Tracer)
    (hc : env.newHTTPCollector zipkinHTTPEndpoint = .ok c)
    (ht : env.newTracer ⟨c, debug, "127.0.0.1", h.serviceName⟩ sameSpan traceID128Bit
      = .ok tr) :
    (exampleThree env h w r s).2 = none
    ∧ (exampleThree env h w r s).1.log
      = s.log ++
        [Event.spanStart s.nextSpan "Server" none,
         Event.finish s.nextSpan,
         Event.setOperationName s.nextSpan
           ("before " ++ (s.heap r).Method ++ " " ++ (s.heap r).URL.Path),
         Event.setTag s.nextSpan "url" (.str (env.urlString (s.heap r).URL)),
         Event.finish s.nextSpan,
         Event.spanStart (s.nextSpan + 1) h.clientName (some s.nextSpan),
         Event.setOperationName (s.nextSpan + 1)
           ("after " ++ (s.heap r).Method ++ " " ++ (s.heap r).URL.Path),
         Event.setTag (s.nextSpan + 1) "statusCode" (.int 400),
         Event.setTag (s.nextSpan + 1) "url" (.str (env.urlString (s.heap r).URL)),
         Event.finish (s.nextSpan + 1)] := by
  simp [exampleThree, chainMiddleware, chainLoop, handlerOne.sendToZipkinAfter,
    handlerOne.sendToZipkinBefore, handlerOne.home, handlerOne.createZipkin, hc, ht,
    StartSpan, startSpanWith, InitGlobalTracer, ContextWithSpan, SpanFromContext,
    StartSpanFromContext, reqContext, WithContext, deferredH, Finish, SetTag,
    SetOperationName, World.record]

/-- C3 fails on the code: on the request `GET /home`, with the collector and the tracer
constructed, the composed handler of example three returns having started the root span
`Server` (identity 0) and the child span `dummyClient` (identity 1); the child span is
finished once, the root span is finished twice (once in `createZipkin`, once more by the
deferred `Finish` of `sendToZipkinBefore`), and it is tagged after its first finish. -/
theorem exampleThree_root_finished_twice :
    (exampleThree Env.test h1 7 0 World.empty).2 = none
    ∧ spansStarted (exampleThree Env.test h1 7 0 World.empty).1.log
        = [(0, "Server", none), (1, "dummyClient", some 0)]
    ∧ finishCount 1 (exampleThree Env.test h1 7 0 World.empty).1.log = 1
    ∧ finishCount 0 (exampleThree Env.test h1 7 0 World.empty).1.log = 2
    ∧ tagsPrecedeFinish 0 (exampleThree Env.test h1 7 0 World.empty).1.log = false := by
  decide

/-- C8: in the chain of example three, with the collector and the tracer constructed,
`createZipkin` starts the root span `Server` and returns a context holding it; the
request made by `r.WithContext(ctx)` gives that same span back to
`SpanFromContext(r.Context())`; and `sendToZipkinBefore`, nested inside, names, tags and
finishes exactly that span: the identity it operates on is the identity of the span
`Server`, no new span is started for it. -/
theorem exampleThree_context_roundtrip (env : Env) (h : handlerOne) (w : ResponseWriter)
    (r : ReqPtr) (s : World) (c : Collector) (tr : Tracer)
    (hc : env.newHTTPCollector zipkinHTTPEndpoint = .ok c)
    (ht : env.newTracer ⟨c, debug, "127.0.0.1", h.serviceName⟩ sameSpan traceID128Bit
      = .ok tr) :
    (∃ (ctx : Context) (s1 : World),
        h.createZipkin env r s = (.ok ctx, s1)
        ∧ spansStarted (eventsSince s s1) = [(s.nextSpan, "Server", none)]
        ∧ SpanFromContext ctx = some s.nextSpan
        ∧ SpanFromContext (reqContext (WithContext r ctx s1).1 (WithContext r ctx s1).2)
            = some s.nextSpan
        ∧ ∀ (next : HandlerFunc),
            h.sendToZipkinBefore env next w (WithContext r ctx s1).1 (WithContext r ctx s1).2
              = deferredH (Finish s.nextSpan) (fun s2 =>
                  next w (WithContext r ctx s1).1
                    (SetTag s.nextSpan "url" (.str (env.urlString (s.heap r).URL))
                      (SetOperationName s.nextSpan
                        ("before " ++ (s.heap r).Method ++ " " ++ (s.heap r).URL.Path) s2)))
                  (WithContext r ctx s1).2)
    ∧ spansStarted (eventsSince s (exampleThree env h w r s).1)
        = [(s.nextSpan, "Server", none), (s.nextSpan + 1, h.clientName, some s.nextSpan)]
    ∧ Event.setOperationName s.nextSpan
        ("before " ++ (s.heap r).Method ++ " " ++ (s.heap r).URL.Path)
        ∈ eventsSince s (exampleThree env h w r s).1 := by
  obtain ⟨_, hlog⟩ := exampleThree_log env h w r s c tr hc ht
  refine ⟨?_, ?_, ?_⟩
  · have hcz : h.createZipkin env r s
        = (.ok ⟨some s.nextSpan⟩,
           Finish s.nextSpan (StartSpan "Server" (InitGlobalTracer tr s)).2) := by
      simp [handlerOne.createZipkin, hc, ht, StartSpan, startSpanWith, ContextWithSpan,
        InitGlobalTracer]
    refine ⟨⟨some s.nextSpan⟩, _, hcz, ?_, rfl, ?_, ?_⟩
    · simp [eventsSince, Finish, World.record, InitGlobalTracer, spansStarted, StartSpan,
        startSpanWith]
    · simp [SpanFromContext, reqContext, WithContext]
    · intro next
      simp [handlerOne.sendToZipkinBefore, SpanFromContext, reqContext, WithContext,
        deferredH, Finish, SetTag, SetOperationName, World.record, InitGlobalTracer,
        StartSpan, startSpanWith]
  · rw [eventsSince_append _ _ _ hlog]
    simp [spansStarted]
  · rw [eventsSince_append _ _ _ hlog]
    simp

/-- Witness of C8: the request `GET /home` in the test environment. -/
theorem exampleThree_context_roundtrip_witness :
    Event.setOperationName 0 ("before " ++ "GET" ++ " " ++ "/home")
      ∈ eventsSince World.empty (exampleThree Env.test h1 7 0 World.empty).1 :=
  (exampleThree_context_roundtrip Env.test h1 7 0 World.empty ⟨zipkinHTTPEndpoint⟩
    ⟨⟨⟨zipkinHTTPEndpoint⟩, debug, "127.0.0.1", "dummyServer"⟩, sameSpan, traceID128Bit⟩
    rfl rfl).2.2

/-! ## C9: the multiplexer of example two -/

/-- C9: for every table `m`, writer, request and world: when `r.RequestURI` is a key of
`m`, `ServeHTTP` (also behind `endpoints`) is the handler stored under that key, called
once on the same `(w, r)`, and the multiplexer itself writes nothing; otherwise no
handler runs and the status 404 is written. With handlers that record their own key, the
log grows by exactly one call of the handler of `r.RequestURI`, or by exactly one
`WriteHeader(404)`: matching is string equality on the whole URI. -/
theorem multiplexer_exact_match (m : multiplexer) (w : ResponseWriter) (r : ReqPtr)
    (s : World) :
    (∀ handler : HandlerFunc, m (s.heap r).RequestURI = some handler →
        multiplexer.ServeHTTP m w r s = handler w r s
        ∧ endpoints (multiplexer.ServeHTTP m) w r s = handler w r s)
    ∧ (m (s.heap r).RequestURI = none →
        multiplexer.ServeHTTP m w r s = (s.record (Event.writeHeader w 404), none)
        ∧ endpoints (multiplexer.ServeHTTP m) w r s
            = (s.record (Event.writeHeader w 404), none))
    ∧ (∀ keys : List String,
        eventsSince s (multiplexer.ServeHTTP (recordingMux keys) w r s).1
          = if (s.heap r).RequestURI ∈ keys then [Event.call (s.heap r).RequestURI w r]
            else [Event.writeHeader w 404]) := by
  refine ⟨?_, ?_, ?_⟩
  · intro handler hm
    simp [multiplexer.ServeHTTP, endpoints, hm]
  · intro hm
    simp [multiplexer.ServeHTTP, endpoints, hm, WriteHeader, http.StatusNotFound]
  · intro keys
    by_cases hk : (s.heap r).RequestURI ∈ keys
    · simp [multiplexer.ServeHTTP, recordingMux, hk, recordingHandler, eventsSince,
        World.record]
    · simp [multiplexer.ServeHTTP, recordingMux, hk, WriteHeader, eventsSince,
        World.record, http.StatusNotFound]

/-- Witness of C9 on the table of `main` (`/foo/`, `/bar/`): the URI `/foo/` reaches
`fooHandler`; a missing trailing slash, a query string and a longer path are answered
with 404. -/
theorem multiplexer_exact_match_witness :
    multiplexer.ServeHTTP (mainMux ⟨some 0⟩) 7 0 (World.withURI "/foo/")
        = fooHandler ⟨some 0⟩ 7 0 (World.withURI "/foo/")
    ∧ multiplexer.ServeHTTP (mainMux ⟨some 0⟩) 7 0 (World.withURI "/foo")
        = ((World.withURI "/foo").record (Event.writeHeader 7 404), none)
    ∧ multiplexer.ServeHTTP (mainMux ⟨some 0⟩) 7 0 (World.withURI "/foo/?x=1")
        = ((World.withURI "/foo/?x=1").record (Event.writeHeader 7 404), none)
    ∧ multiplexer.ServeHTTP (mainMux ⟨some 0⟩) 7 0 (World.withURI "/foo/bar/")
        = ((World.withURI "/foo/bar/").record (Event.writeHeader 7 404), none) :=
  ⟨((multiplexer_exact_match (mainMux ⟨some 0⟩) 7 0 (World.withURI "/foo/")).1
      (fooHandler ⟨some 0⟩) rfl).1,
   ((multiplexer_exact_match (mainMux ⟨some 0⟩) 7 0 (World.withURI "/foo")).2.1 rfl).1,
   ((multiplexer_exact_match (mainMux ⟨some 0⟩) 7 0 (World.withURI "/foo/?x=1")).2.1 rfl).1,
   ((multiplexer_exact_match (mainMux ⟨some 0⟩) 7 0 (World.withURI "/foo/bar/")).2.1 rfl).1⟩

/-! ## C10: the pre-only unit of example four -/

/-- C10: for every `next`, writer, request and world, `logBefore(next)` is `next` called
once on the same `(w, r)`, in the world that differs from the starting one only by the
dumps: the error, when identifier generation fails, and then the identifier. The heap of
requests is untouched and the outcome (return or panic) is that of `next`: a failed
generation never prevents the call. -/
theorem logBefore_calls_next (env : Env) (h : handlerOne) (next : HandlerFunc)
    (w : ResponseWriter) (r : ReqPtr) (s : World) :
    h.logBefore env next w r s
      = next w r (s.recordAll
          ((match (env.generateUUID s).2 with
            | some e => [Event.dump e]
            | none => [])
           ++ [Event.dump (env.generateUUID s).1]))
    ∧ (∀ e : String, (env.generateUUID s).2 = some e →
        h.logBefore env next w r s
          = next w r (s.recordAll [Event.dump e, Event.dump (env.generateUUID s).1]))
    ∧ ((env.generateUUID s).2 = none →
        h.logBefore env next w r s
          = next w r (s.recordAll [Event.dump (env.generateUUID s).1])) := by
  have hmain : h.logBefore env next w r s
      = next w r (s.recordAll
          ((match (env.generateUUID s).2 with
            | some e => [Event.dump e]
            | none => [])
           ++ [Event.dump (env.generateUUID s).1])) := by
    unfold handlerOne.logBefore
    cases hg : (env.generateUUID s).2 with
    | none => simp [hg, World.record, World.recordAll]
    | some e => simp [hg, World.record, World.recordAll]
  refine ⟨hmain, ?_, ?_⟩
  · intro e he
    rw [hmain, he]; rfl
  · intro hn
    rw [hmain, hn]; rfl

/-- Witness of C10: identifier generation fails, the error and the empty identifier are
dumped, and the recording handler is still called on the same writer and request. -/
theorem logBefore_calls_next_witness :
    (h1.logBefore Env.noUUID (recordingHandler "home") 7 0 World.empty).1.log
      = [Event.dump "failed to read random bytes", Event.dump "", Event.call "home" 7 0] :=
  congrArg (fun res => res.1.log)
    ((logBefore_calls_next Env.noUUID h1 (recordingHandler "home") 7 0 World.empty).2.1
      "failed to read random bytes" rfl)

end ZipkinExample
